import Mathlib

/-
Verification of the Logo Animator Studio orchestration core.

This file shallowly embeds the orchestration logic of the repository:
the animation orchestrator `animateLogo` from src/services/geminiService.ts
(its submit / poll loop / result-fetch protocol and its error
classification), the image-generation client `generateLogoImage`, and the
view state machine handlers from the App component
(`handleGenerateLogo`, `handleAnimateLogo`, `handleSelectKey`,
`handleReset`, rendering-derived stage).

Remote interactions are modelled by an explicit environment: the
submission response, the ordered list of poll responses, and the outcome
of the final byte fetch.  The orchestrator is embedded as a function of
that environment returning an execution trace: the progress messages it
emitted, how many remote snapshot calls it made, whether it attempted the
download fetch, and its final result (a playable resource reference or an
error message).
-/

/-- Target shape of a rendered video, `16:9` or `9:16`
(the `AspectRatio` union type of src/types.ts). -/
inductive Aspect
  | r16x9
  | r9x16
deriving DecidableEq, Inhabited

/-- String form of an `Aspect`, as sent to the remote service. -/
def Aspect.toStr : Aspect → String
  | Aspect.r16x9 => "16:9"
  | Aspect.r9x16 => "9:16"

/-- An operation snapshot returned by the remote video service: a
completion flag and, when complete, an optional result reference
(`operation.done` and `operation.response?.generatedVideos?.[0]?.video?.uri`). -/
structure Snapshot where
  done : Bool
  resultUri : Option String
deriving DecidableEq, Inhabited

/-- Whether the pattern occurs as a contiguous run inside the list
(the semantics of JavaScript `String.prototype.includes`). -/
def containsSub (pat : List Char) : List Char → Bool
  | [] => pat.isEmpty
  | c :: rest => pat.isPrefixOf (c :: rest) || containsSub pat rest

/-- Substring test on strings, modelling `message.includes(pat)`. -/
def strContains (s pat : String) : Bool :=
  containsSub pat.data s.data

/-- The fixed round-robin progress strings of `animateLogo`. -/
def loadingMessages : List String :=
  [ "Warming up the animation studio...",
    "Rendering initial frames...",
    "Adding visual effects...",
    "This can take a few minutes...",
    "Finalizing the animation...",
    "Almost there, polishing the details..." ]

instance {ε α : Type} [DecidableEq ε] [DecidableEq α] : DecidableEq (Except ε α) := fun x y =>
  match x, y with
  | Except.ok a, Except.ok b =>
      if h : a = b then isTrue (h ▸ rfl) else isFalse (fun hh => h (Except.ok.inj hh))
  | Except.error a, Except.error b =>
      if h : a = b then isTrue (h ▸ rfl) else isFalse (fun hh => h (Except.error.inj hh))
  | Except.ok _, Except.error _ => isFalse (fun hh => Except.noConfusion hh)
  | Except.error _, Except.ok _ => isFalse (fun hh => Except.noConfusion hh)

/-- Environment of one `animateLogo` run: the submission response, the
ordered poll responses (each either a fresh snapshot or a thrown error),
and the outcome of the byte fetch at the result reference. -/
structure AnimateEnv where
  submit : Except String Snapshot
  polls : List (Except String Snapshot)
  fetchOk : Bool
  fetchStatusText : String
  videoUrl : String
deriving DecidableEq

/-- Execution trace of one `animateLogo` run: progress messages emitted
through the callback, number of submission calls and of poll calls,
whether the download fetch was attempted, and the outcome. -/
structure Trace where
  messages : List String
  submitCalls : Nat
  pollCalls : Nat
  fetchAttempted : Bool
  result : Except String String
deriving DecidableEq

/-- The `while (!operation.done)` loop of `animateLogo`: while the current
snapshot is not done, emit `loadingMessages[messageIndex % length]`,
advance the index, and poll once more; an error thrown by a poll call
propagates out.  Returns the emitted messages, the number of poll calls
performed, and either the final (done) snapshot or the thrown error;
`none` means the modelled poll responses were exhausted with the loop
still running. -/
def pollLoop (op : Snapshot) (polls : List (Except String Snapshot)) (i : Nat) :
    Option (List String × Nat × Except String Snapshot) :=
  if op.done then some ([], 0, Except.ok op)
  else
    match polls with
    | [] => none
    | Except.error e :: _ =>
        some ([loadingMessages.getD (i % loadingMessages.length) ""], 1, Except.error e)
    | Except.ok op2 :: rest =>
        match pollLoop op2 rest (i + 1) with
        | none => none
        | some (msgs, calls, r) =>
            some (loadingMessages.getD (i % loadingMessages.length) "" :: msgs, calls + 1, r)

/-- Runs the poll loop on an explicit snapshot sequence whose head is the
submission snapshot and whose tail provides the poll responses. -/
def runSeq : List Snapshot → Nat → Option (List String × Nat × Except String Snapshot)
  | [], _ => none
  | s :: rest, i => pollLoop s (rest.map Except.ok) i

/-- Body of `animateLogo` before its `catch` block: emit the initiation
message, submit, run the poll loop, emit the completion message, extract
the result reference (failing with the no-download-link error when it is
absent), fetch the bytes (failing with the transfer status text on a
non-success status), and wrap them as a playable resource.  `none` means
the modelled poll responses were exhausted with the loop still running. -/
def animateBody (env : AnimateEnv) : Option Trace :=
  match env.submit with
  | Except.error e =>
      some { messages := ["Initiating animation sequence..."], submitCalls := 1,
             pollCalls := 0, fetchAttempted := false, result := Except.error e }
  | Except.ok op0 =>
      match pollLoop op0 env.polls 0 with
      | none => none
      | some (msgs, calls, Except.error e) =>
          some { messages := "Initiating animation sequence..." :: msgs, submitCalls := 1,
                 pollCalls := calls, fetchAttempted := false, result := Except.error e }
      | some (msgs, calls, Except.ok finOp) =>
          let allMsgs :=
            "Initiating animation sequence..." ::
              msgs ++ ["Animation complete! Fetching video..."]
          match finOp.resultUri with
          | none =>
              some { messages := allMsgs, submitCalls := 1, pollCalls := calls,
                     fetchAttempted := false,
                     result := Except.error
                       "Video generation finished, but no download link was provided." }
          | some _ =>
              if env.fetchOk then
                some { messages := allMsgs, submitCalls := 1, pollCalls := calls,
                       fetchAttempted := true, result := Except.ok env.videoUrl }
              else
                some { messages := allMsgs, submitCalls := 1, pollCalls := calls,
                       fetchAttempted := true,
                       result := Except.error
                         ("Failed to download video: " ++ env.fetchStatusText) }

/-- The `catch` block of `animateLogo`: an error whose message contains
"Requested entity was not found" is rethrown as the fixed message
"Requested entity was not found."; every other error is rethrown as
"Failed to animate logo. Please try again.". -/
def classifyAnimateError (m : String) : String :=
  if strContains m "Requested entity was not found" then "Requested entity was not found."
  else "Failed to animate logo. Please try again."

/-- The full `animateLogo` of src/services/geminiService.ts: its body with
every error routed through the `catch` classification. -/
def animateLogo (env : AnimateEnv) : Option Trace :=
  match animateBody env with
  | none => none
  | some t =>
      match t.result with
      | Except.ok v => some { t with result := Except.ok v }
      | Except.error m => some { t with result := Except.error (classifyAnimateError m) }

/-- Response of the remote image service: the list of generated image
byte payloads. -/
structure ImagesResponse where
  generatedImages : List String
deriving DecidableEq

/-- `generateLogoImage` of src/services/geminiService.ts: takes the first
generated image and wraps it as a data URI; every failure (thrown error or
empty result list) is normalized to the one generation-failure message. -/
def generateLogoImage (resp : Except String ImagesResponse) : Except String String :=
  match resp with
  | Except.error _ => Except.error "Failed to generate logo. Please try a different prompt."
  | Except.ok r =>
      match r.generatedImages with
      | [] => Except.error "Failed to generate logo. Please try a different prompt."
      | b :: _ => Except.ok ("data:image/png;base64," ++ b)

/-- A single apostrophe character, used in the composed image prompt. -/
def squote : String := String.singleton (Char.ofNat 39)

/-- The request `generateLogoImage` issues (model, composed prompt, one
PNG image, fixed square shape written "1:1"; the last field embeds the
config property named aspectRatio in the source). -/
structure ImageRequest where
  model : String
  prompt : String
  numberOfImages : Nat
  outputMimeType : String
  aspect : String
deriving DecidableEq

/-- The image-generation request built from the user prompt; its shape
field is the constant "1:1" regardless of the user's selection. -/
def imageGenRequest (p : String) : ImageRequest :=
  { model := "imagen-4.0-generate-001",
    prompt := "A professional, modern logo for a company. Description: " ++ squote ++ p
      ++ squote
      ++ ". Clean vector style, minimalist, high contrast, on a solid transparent background.",
    numberOfImages := 1,
    outputMimeType := "image/png",
    aspect := "1:1" }

/-- The request `animateLogo` submits (model, fixed animation prompt,
image bytes taken after the first comma of the data URI, one 720p video at
the selected shape; the last field embeds the config property named
aspectRatio in the source). -/
structure VideoRequest where
  model : String
  prompt : String
  imageBytes : String
  mimeType : String
  numberOfVideos : Nat
  resolution : String
  aspect : Aspect
deriving DecidableEq

/-- The animation-submission request built from the image data URI and the
currently selected shape. -/
def videoGenRequest (imageBase64 : String) (a : Aspect) : VideoRequest :=
  { model := "veo-3.1-fast-generate-preview",
    prompt := "A sleek, elegant, and short 3D animation of this logo. The animation should feel premium and modern.",
    imageBytes := (imageBase64.splitOn ",").getD 1 "",
    mimeType := "image/png",
    numberOfVideos := 1,
    resolution := "720p",
    aspect := a }

/-- The state of the App component (src/unnamed/part_001): credential
tri-state, prompt, selected shape (the aspectRatio state of the source),
generated image and video references, busy flags, progress text and the
error slot. -/
structure AppState where
  apiKeySelected : Option Bool
  prompt : String
  aspect : Aspect
  generatedImage : Option String
  generatedVideoUrl : Option String
  isGeneratingImage : Bool
  isGeneratingVideo : Bool
  videoLoadingMessage : String
  error : Option String
deriving DecidableEq

/-- One handler invocation: the state at the moment the remote call is
issued (equal to the input state when no call happens), whether a remote
call was issued at all, and the state after the handler settles. -/
structure ActionRun where
  pre : AppState
  called : Bool
  post : AppState
deriving DecidableEq

/-- The stages of the view state machine, derived from which component
`renderContent` shows and which busy flag is up. -/
inductive Stage
  | AwaitingCredential
  | NoCredential
  | Idle
  | GeneratingImage
  | ImageReady
  | GeneratingVideo
  | VideoReady
deriving DecidableEq

/-- Stage of a state, following the branch order of `renderContent` in
src/unnamed/part_001: credential unknown, credential absent, a video
present, an image present (animating or ready), otherwise generating or
idle. -/
def stage (s : AppState) : Stage :=
  match s.apiKeySelected with
  | none => Stage.AwaitingCredential
  | some false => Stage.NoCredential
  | some true =>
      match s.generatedVideoUrl with
      | some _ => Stage.VideoReady
      | none =>
          match s.generatedImage with
          | some _ =>
              if s.isGeneratingVideo then Stage.GeneratingVideo else Stage.ImageReady
          | none =>
              if s.isGeneratingImage then Stage.GeneratingImage else Stage.Idle

/-- Drops leading and trailing whitespace characters from a character
list. -/
def trimChars (l : List Char) : List Char :=
  ((l.dropWhile Char.isWhitespace).reverse.dropWhile Char.isWhitespace).reverse

/-- Whitespace trimming on strings, modelling JavaScript
`String.prototype.trim` as used in `prompt.trim()`. -/
def strTrim (s : String) : String :=
  ⟨trimChars s.data⟩

/-- The local validation message for an empty prompt. -/
def emptyPromptError : String := "Please enter a description for your logo."

/-- `handleGenerateLogo`: an empty-after-trim prompt sets the validation
error and returns without any remote call; otherwise the error slot is
cleared and the image busy flag raised before `generateLogoImage` is
awaited, then the handler settles with the image or the error and lowers
the busy flag. -/
def handleGenerateLogo (resp : Except String ImagesResponse) (s : AppState) : ActionRun :=
  if strTrim s.prompt = "" then
    ⟨s, false, { s with error := some emptyPromptError }⟩
  else
    let pre : AppState := { s with error := none, isGeneratingImage := true }
    match generateLogoImage resp with
    | Except.ok img =>
        ⟨pre, true, { pre with generatedImage := some img, isGeneratingImage := false }⟩
    | Except.error m =>
        ⟨pre, true, { pre with error := some m, isGeneratingImage := false }⟩

/-- The selection-failure message of `handleSelectKey`. -/
def selectKeyError : String :=
  "Could not open API key selection. Please ensure you are in a supported environment."

/-- `handleSelectKey` of src/unnamed/part_001: on a successful chooser
call the credential state is optimistically marked present; if opening the
chooser throws, the error slot is set.  It never clears the error slot. -/
def handleSelectKey (openOk : Bool) (s : AppState) : AppState :=
  if openOk then { s with apiKeySelected := some true }
  else { s with error := some selectKeyError }

/-- `handleAnimateLogo` of src/unnamed/part_001: without a generated image
it returns at once; otherwise it clears the error slot, raises the video
busy flag, sets the starting progress text, awaits `animateLogo`, then on
success stores the video reference and on failure sets the error slot —
first downgrading the credential state when the settled error message
contains "API key is invalid" — and lowers the busy flag. -/
def handleAnimateLogo (env : AnimateEnv) (s : AppState) : ActionRun :=
  if s.generatedImage.isNone then ⟨s, false, s⟩
  else
    let pre : AppState :=
      { s with error := none, isGeneratingVideo := true,
               videoLoadingMessage := "Starting animation process..." }
    match animateLogo env with
    | none => ⟨pre, true, pre⟩
    | some t =>
        let mid : AppState := { pre with videoLoadingMessage := t.messages.getLastD pre.videoLoadingMessage }
        match t.result with
        | Except.ok url =>
            ⟨pre, true, { mid with generatedVideoUrl := some url, isGeneratingVideo := false }⟩
        | Except.error m =>
            let s2 : AppState :=
              if strContains m "API key is invalid" then { mid with apiKeySelected := some false }
              else mid
            ⟨pre, true, { s2 with error := some m, isGeneratingVideo := false }⟩

/-- The default prompt text restored by reset. -/
def defaultPrompt : String := "A minimalist fox icon for a tech startup"

/-- `handleReset`: restore the default prompt, drop the image and video
references, clear the error and lower both busy flags. -/
def handleReset (s : AppState) : AppState :=
  { s with prompt := defaultPrompt,
           generatedImage := none,
           generatedVideoUrl := none,
           error := none,
           isGeneratingImage := false,
           isGeneratingVideo := false }

/-- The `setAspectRatio` state setter: stores the selected shape and
touches nothing else. -/
def setAspect (a : Aspect) (s : AppState) : AppState :=
  { s with aspect := a }

/-- A snapshot that is done short-circuits the poll loop. -/
lemma pollLoop_done (op : Snapshot) (polls : List (Except String Snapshot)) (i : Nat)
    (h : op.done = true) : pollLoop op polls i = some ([], 0, Except.ok op) := by
  unfold pollLoop
  simp [h]

/-- Unfolding of the poll loop on a not-done snapshot with a successful
next poll response. -/
lemma pollLoop_cons_ok (op op2 : Snapshot) (rest : List (Except String Snapshot)) (i : Nat)
    (h : op.done = false) :
    pollLoop op (Except.ok op2 :: rest) i =
      match pollLoop op2 rest (i + 1) with
      | none => none
      | some (msgs, calls, r) =>
          some (loadingMessages.getD (i % loadingMessages.length) "" :: msgs, calls + 1, r) := by
  simp [pollLoop, h]

/-- Running the poll loop over a sequence of not-done snapshots followed
by one done snapshot performs one poll call and emits one progress message
per not-done snapshot, and surfaces the done snapshot. -/
lemma runSeq_ok : ∀ (notDone : List Snapshot) (fin : Snapshot) (i : Nat),
    (∀ s ∈ notDone, s.done = false) → fin.done = true →
    ∃ msgs : List String,
      runSeq (notDone ++ [fin]) i = some (msgs, notDone.length, Except.ok fin)
      ∧ msgs.length = notDone.length
  | [], fin, i, _, hf => ⟨[], by simp [runSeq, pollLoop_done _ _ _ hf], rfl⟩
  | a :: as, fin, i, hnd, hf => by
      have ha : a.done = false := hnd a (List.mem_cons_self a as)
      have hnd' : ∀ s ∈ as, s.done = false := fun s hs => hnd s (List.mem_cons_of_mem a hs)
      obtain ⟨msgs, hrun, hlen⟩ := runSeq_ok as fin (i + 1) hnd' hf
      rcases hb : as ++ [fin] with _ | ⟨b, rest⟩
      · exact absurd hb (by simp)
      · rw [hb] at hrun
        have hrun' : pollLoop b (rest.map Except.ok) (i + 1)
            = some (msgs, as.length, Except.ok fin) := by
          simpa [runSeq] using hrun
        refine ⟨loadingMessages.getD (i % loadingMessages.length) "" :: msgs, ?_,
          by simp [hlen]⟩
        have hstep : runSeq ((a :: as) ++ [fin]) i
            = pollLoop a ((as ++ [fin]).map Except.ok) i := rfl
        rw [hstep, hb, List.map_cons, pollLoop_cons_ok _ _ _ _ ha, hrun']
        simp

/-- Claim C1: when the submission snapshot and the subsequent poll
responses form a sequence of N not-done snapshots followed by one done
snapshot carrying a result reference (and the byte fetch succeeds),
`animateLogo` performs exactly N + 1 remote snapshot calls — the
submission plus N polls — and emits at least N progress messages through
the callback before returning a playable result. -/
theorem animate_polling_counts (notDone : List Snapshot) (fin : Snapshot) (env : AnimateEnv)
    (hnd : ∀ s ∈ notDone, s.done = false) (hf : fin.done = true)
    (hu : fin.resultUri.isSome = true) (hfetch : env.fetchOk = true)
    (hseq : env.submit :: env.polls = (notDone ++ [fin]).map Except.ok) :
    ∃ t : Trace, animateLogo env = some t
      ∧ t.submitCalls + t.pollCalls = notDone.length + 1
      ∧ notDone.length ≤ t.messages.length
      ∧ t.result = Except.ok env.videoUrl := by
  obtain ⟨u, hu'⟩ := Option.isSome_iff_exists.mp hu
  obtain ⟨msgs, hrun, hlen⟩ := runSeq_ok notDone fin 0 hnd hf
  rcases hb : notDone ++ [fin] with _ | ⟨b, rest⟩
  · exact absurd hb (by simp)
  · rw [hb] at hseq hrun
    rw [List.map_cons] at hseq
    have hsub : env.submit = Except.ok b := (List.cons.injEq _ _ _ _ ▸ hseq).1
    have hpolls : env.polls = rest.map Except.ok := by
      have := congrArg List.tail hseq
      simpa using this
    have hpoll : pollLoop b (rest.map Except.ok) 0
        = some (msgs, notDone.length, Except.ok fin) := by
      simpa [runSeq] using hrun
    refine ⟨{ messages := "Initiating animation sequence..." ::
                msgs ++ ["Animation complete! Fetching video..."],
              submitCalls := 1, pollCalls := notDone.length,
              fetchAttempted := true, result := Except.ok env.videoUrl }, ?_, ?_, ?_, rfl⟩
    · simp [animateLogo, animateBody, hsub, hpolls, hpoll, hu', hfetch]
    · show 1 + notDone.length = notDone.length + 1
      omega
    · show notDone.length ≤ ("Initiating animation sequence..." ::
        msgs ++ ["Animation complete! Fetching video..."]).length
      simp
      omega

/-- A not-yet-done snapshot used in concrete runs. -/
def snapRunning : Snapshot := ⟨false, none⟩

/-- A done snapshot carrying a result reference. -/
def snapDone : Snapshot := ⟨true, some "videos.example.result-1"⟩

/-- A concrete environment: one not-done submission snapshot, one done
poll response, successful fetch. -/
def envPollOnce : AnimateEnv :=
  { submit := Except.ok snapRunning,
    polls := [Except.ok snapDone],
    fetchOk := true,
    fetchStatusText := "OK",
    videoUrl := "blob-demo-1" }

/-- Witness for claim C1 at a concrete run with N = 1. -/
theorem animate_polling_counts_witness :
    ∃ t : Trace, animateLogo envPollOnce = some t
      ∧ t.submitCalls + t.pollCalls = [snapRunning].length + 1
      ∧ [snapRunning].length ≤ t.messages.length
      ∧ t.result = Except.ok envPollOnce.videoUrl :=
  animate_polling_counts [snapRunning] snapDone envPollOnce (by decide) (by decide)
    (by decide) (by decide) (by decide)

/-- An environment whose submission throws an error that contains, but is
not equal to, the not-found marker text. -/
def envNotFoundLong : AnimateEnv :=
  { submit := Except.error "submit failed: Requested entity was not found for operation op-7",
    polls := [],
    fetchOk := true,
    fetchStatusText := "OK",
    videoUrl := "blob-demo-2" }

/-- Counterexample to claim C2 as stated: an underlying error containing
"Requested entity was not found" is surfaced as the fixed message
"Requested entity was not found.", which differs from the underlying
message, so the error is not surfaced verbatim. -/
theorem animate_error_verbatim_ce :
    (animateLogo envNotFoundLong).map Trace.result
      = some (Except.error "Requested entity was not found.")
    ∧ "Requested entity was not found."
      ≠ "submit failed: Requested entity was not found for operation op-7" := by
  constructor
  · rfl
  · decide

/-- Claim C2 (amended): every error raised inside `animateLogo` whose
message contains "Requested entity was not found" is surfaced as the fixed
message "Requested entity was not found."; every other error is surfaced
as the fixed generic message "Failed to animate logo. Please try again.". -/
theorem animate_error_classified (env : AnimateEnv) (t : Trace) (m : String)
    (hb : animateBody env = some t) (he : t.result = Except.error m) :
    ∃ t2 : Trace, animateLogo env = some t2
      ∧ (strContains m "Requested entity was not found" = true →
          t2.result = Except.error "Requested entity was not found.")
      ∧ (strContains m "Requested entity was not found" = false →
          t2.result = Except.error "Failed to animate logo. Please try again.") := by
  refine ⟨{ t with result := Except.error (classifyAnimateError m) }, ?_, ?_, ?_⟩
  · simp [animateLogo, hb, he]
  · intro h
    simp [classifyAnimateError, h]
  · intro h
    simp [classifyAnimateError, h]

/-- An environment whose submission throws an unrelated error. -/
def envBoom : AnimateEnv :=
  { submit := Except.error "boom",
    polls := [],
    fetchOk := true,
    fetchStatusText := "OK",
    videoUrl := "blob-demo-3" }

/-- The trace of `animateBody` on `envBoom`. -/
def traceBoom : Trace :=
  { messages := ["Initiating animation sequence..."], submitCalls := 1,
    pollCalls := 0, fetchAttempted := false, result := Except.error "boom" }

/-- Witness for claim C2 (amended) at a concrete unrelated error. -/
theorem animate_error_classified_witness :
    ∃ t2 : Trace, animateLogo envBoom = some t2
      ∧ t2.result = Except.error "Failed to animate logo. Please try again." := by
  obtain ⟨t2, h1, _, h3⟩ :=
    animate_error_classified envBoom traceBoom "boom" (by decide) (by decide)
  exact ⟨t2, h1, h3 (by decide)⟩

/-- An environment whose submission throws the invalid-credential error. -/
def envBadKey : AnimateEnv :=
  { submit := Except.error "API key is invalid",
    polls := [],
    fetchOk := true,
    fetchStatusText := "OK",
    videoUrl := "blob-demo-4" }

/-- A state with a credential present and a generated image, from which
the animate action is invoked. -/
def stBadKey : AppState :=
  { apiKeySelected := some true,
    prompt := defaultPrompt,
    aspect := Aspect.r16x9,
    generatedImage := some "data-image-1",
    generatedVideoUrl := none,
    isGeneratingImage := false,
    isGeneratingVideo := false,
    videoLoadingMessage := "",
    error := none }

/-- Claim C3, evaluated at the failing input: when the underlying animate
error is "API key is invalid", `animateLogo` normalizes it to the generic
message before the App handler sees it, so the handler's check for
"API key is invalid" never fires and the credential state stays present
instead of being downgraded to absent. -/
theorem animate_credential_downgrade_dead :
    (handleAnimateLogo envBadKey stBadKey).post.apiKeySelected = some true
    ∧ (handleAnimateLogo envBadKey stBadKey).post.error
        = some "Failed to animate logo. Please try again."
    ∧ strContains "API key is invalid" "API key is invalid" = true := by
  decide

/-- Under the C1-style sequence hypothesis, the submission succeeds with
the head snapshot and the poll loop runs to the done snapshot, one poll
call and one message per not-done snapshot. -/
lemma animateBody_poll_phase (notDone : List Snapshot) (fin : Snapshot) (env : AnimateEnv)
    (hnd : ∀ s ∈ notDone, s.done = false) (hf : fin.done = true)
    (hseq : env.submit :: env.polls = (notDone ++ [fin]).map Except.ok) :
    ∃ b msgs, env.submit = Except.ok b
      ∧ pollLoop b env.polls 0 = some (msgs, notDone.length, Except.ok fin)
      ∧ msgs.length = notDone.length := by
  rcases hb : notDone ++ [fin] with _ | ⟨b, rest⟩
  · exact absurd hb (by simp)
  · obtain ⟨msgs, hrun, hlen⟩ := runSeq_ok notDone fin 0 hnd hf
    rw [hb] at hseq hrun
    rw [List.map_cons] at hseq
    have hsub : env.submit = Except.ok b := (List.cons.injEq _ _ _ _ ▸ hseq).1
    have hpolls : env.polls = rest.map Except.ok := by
      have := congrArg List.tail hseq
      simpa using this
    have hpoll : pollLoop b env.polls 0 = some (msgs, notDone.length, Except.ok fin) := by
      rw [hpolls]
      simpa [runSeq] using hrun
    exact ⟨b, msgs, hsub, hpoll, hlen⟩

/-- Claim C4: when the final snapshot is done but carries no result
reference, the orchestrator raises the no-download-link error and never
attempts the byte fetch; the error leaves `animateLogo` normalized to the
generic animate-failure message, still with no fetch attempted. -/
theorem animate_no_download_link (notDone : List Snapshot) (fin : Snapshot) (env : AnimateEnv)
    (hnd : ∀ s ∈ notDone, s.done = false) (hf : fin.done = true)
    (hu : fin.resultUri = none)
    (hseq : env.submit :: env.polls = (notDone ++ [fin]).map Except.ok) :
    ∃ t : Trace, animateBody env = some t
      ∧ t.fetchAttempted = false
      ∧ t.result = Except.error "Video generation finished, but no download link was provided."
      ∧ ∃ t2 : Trace, animateLogo env = some t2
        ∧ t2.fetchAttempted = false
        ∧ t2.result = Except.error "Failed to animate logo. Please try again." := by
  obtain ⟨b, msgs, hsub, hpoll, hlen⟩ := animateBody_poll_phase notDone fin env hnd hf hseq
  have hbody : animateBody env
      = some { messages := "Initiating animation sequence..." ::
                 msgs ++ ["Animation complete! Fetching video..."],
               submitCalls := 1, pollCalls := notDone.length, fetchAttempted := false,
               result := Except.error
                 "Video generation finished, but no download link was provided." } := by
    simp [animateBody, hsub, hpoll, hu]
  have hc : classifyAnimateError
      "Video generation finished, but no download link was provided."
      = "Failed to animate logo. Please try again." := by decide
  refine ⟨_, hbody, rfl, rfl, ?_⟩
  refine ⟨{ messages := "Initiating animation sequence..." ::
              msgs ++ ["Animation complete! Fetching video..."],
            submitCalls := 1, pollCalls := notDone.length, fetchAttempted := false,
            result := Except.error "Failed to animate logo. Please try again." }, ?_, rfl, rfl⟩
  simp [animateLogo, hbody, hc]

/-- A done snapshot with no result reference. -/
def snapDoneNoLink : Snapshot := ⟨true, none⟩

/-- An environment whose submission immediately returns a done snapshot
with no result reference. -/
def envNoLink : AnimateEnv :=
  { submit := Except.ok snapDoneNoLink,
    polls := [],
    fetchOk := true,
    fetchStatusText := "OK",
    videoUrl := "blob-demo-5" }

/-- Witness for claim C4 at a concrete run with N = 0. -/
theorem animate_no_download_link_witness :
    ∃ t : Trace, animateBody envNoLink = some t
      ∧ t.fetchAttempted = false
      ∧ t.result = Except.error "Video generation finished, but no download link was provided."
      ∧ ∃ t2 : Trace, animateLogo envNoLink = some t2
        ∧ t2.fetchAttempted = false
        ∧ t2.result = Except.error "Failed to animate logo. Please try again." :=
  animate_no_download_link [] snapDoneNoLink envNoLink (by decide) (by decide)
    (by decide) (by decide)

/-- Claim C5: when the byte fetch at the result reference has a
non-success transfer status, the orchestrator raises an error carrying the
transfer status text and returns no playable resource; `animateLogo`
surfaces an error as well, so no playable resource is ever returned. -/
theorem animate_download_failure (notDone : List Snapshot) (fin : Snapshot)
    (env : AnimateEnv) (uri : String)
    (hnd : ∀ s ∈ notDone, s.done = false) (hf : fin.done = true)
    (hu : fin.resultUri = some uri) (hfetch : env.fetchOk = false)
    (hseq : env.submit :: env.polls = (notDone ++ [fin]).map Except.ok) :
    ∃ t : Trace, animateBody env = some t
      ∧ t.result = Except.error ("Failed to download video: " ++ env.fetchStatusText)
      ∧ (∀ v, t.result ≠ Except.ok v)
      ∧ ∃ t2 : Trace, animateLogo env = some t2
        ∧ t2.result = Except.error
            (classifyAnimateError ("Failed to download video: " ++ env.fetchStatusText))
        ∧ (∀ v2, t2.result ≠ Except.ok v2) := by
  obtain ⟨b, msgs, hsub, hpoll, hlen⟩ := animateBody_poll_phase notDone fin env hnd hf hseq
  have hbody : animateBody env
      = some { messages := "Initiating animation sequence..." ::
                 msgs ++ ["Animation complete! Fetching video..."],
               submitCalls := 1, pollCalls := notDone.length, fetchAttempted := true,
               result := Except.error
                 ("Failed to download video: " ++ env.fetchStatusText) } := by
    simp [animateBody, hsub, hpoll, hu, hfetch]
  refine ⟨_, hbody, rfl, by simp, ?_⟩
  refine ⟨{ messages := "Initiating animation sequence..." ::
              msgs ++ ["Animation complete! Fetching video..."],
            submitCalls := 1, pollCalls := notDone.length, fetchAttempted := true,
            result := Except.error
              (classifyAnimateError ("Failed to download video: " ++ env.fetchStatusText)) },
          ?_, rfl, by simp⟩
  simp [animateLogo, hbody]

/-- A done snapshot carrying a result reference, for the failed-fetch run. -/
def snapDoneLinked : Snapshot := ⟨true, some "videos.example.result-2"⟩

/-- An environment whose fetch of the result bytes has a non-success
transfer status. -/
def envFetchFail : AnimateEnv :=
  { submit := Except.ok snapDoneLinked,
    polls := [],
    fetchOk := false,
    fetchStatusText := "Internal Server Error",
    videoUrl := "blob-demo-6" }

/-- Witness for claim C5 at a concrete run with N = 0. -/
theorem animate_download_failure_witness :
    ∃ t : Trace, animateBody envFetchFail = some t
      ∧ t.result = Except.error ("Failed to download video: " ++ envFetchFail.fetchStatusText)
      ∧ (∀ v, t.result ≠ Except.ok v)
      ∧ ∃ t2 : Trace, animateLogo envFetchFail = some t2
        ∧ t2.result = Except.error
            (classifyAnimateError ("Failed to download video: " ++ envFetchFail.fetchStatusText))
        ∧ (∀ v2, t2.result ≠ Except.ok v2) :=
  animate_download_failure [] snapDoneLinked envFetchFail "videos.example.result-2"
    (by decide) (by decide) (by decide) (by decide) (by decide)

/-- Claim C6: an empty-after-trim prompt makes `handleGenerateLogo` set
only the local validation error, issue no remote call, and leave every
other state field untouched. -/
theorem generate_empty_prompt_no_call (resp : Except String ImagesResponse) (s : AppState)
    (h : strTrim s.prompt = "") :
    handleGenerateLogo resp s = ⟨s, false, { s with error := some emptyPromptError }⟩ := by
  simp [handleGenerateLogo, h]

/-- A state whose prompt is whitespace only. -/
def stWhitespace : AppState :=
  { apiKeySelected := some true,
    prompt := "   ",
    aspect := Aspect.r16x9,
    generatedImage := none,
    generatedVideoUrl := none,
    isGeneratingImage := false,
    isGeneratingVideo := false,
    videoLoadingMessage := "",
    error := none }

/-- Witness for claim C6 at a whitespace-only prompt. -/
theorem generate_empty_prompt_no_call_witness :
    handleGenerateLogo (Except.ok ⟨["bits-1"]⟩) stWhitespace
      = ⟨stWhitespace, false, { stWhitespace with error := some emptyPromptError }⟩ :=
  generate_empty_prompt_no_call (Except.ok ⟨["bits-1"]⟩) stWhitespace (by decide)

/-- Claim C7: from any state that can invoke reset (one whose credential
is present — every stage showing the reset control), `handleReset` lands
in the Idle stage with the default prompt restored, image and video
references cleared, no error and both busy flags down. -/
theorem reset_returns_idle (s : AppState) (h : s.apiKeySelected = some true) :
    stage (handleReset s) = Stage.Idle
    ∧ (handleReset s).prompt = defaultPrompt
    ∧ (handleReset s).generatedImage = none
    ∧ (handleReset s).generatedVideoUrl = none
    ∧ (handleReset s).error = none
    ∧ (handleReset s).isGeneratingImage = false
    ∧ (handleReset s).isGeneratingVideo = false := by
  refine ⟨?_, rfl, rfl, rfl, rfl, rfl, rfl⟩
  simp [stage, handleReset, h]

/-- A video-ready state with an error set, from which reset is invoked. -/
def stVideoReady : AppState :=
  { apiKeySelected := some true,
    prompt := "dragon crest",
    aspect := Aspect.r9x16,
    generatedImage := some "data-image-2",
    generatedVideoUrl := some "blob-demo-7",
    isGeneratingImage := false,
    isGeneratingVideo := false,
    videoLoadingMessage := "Almost there, polishing the details...",
    error := some "stale error" }

/-- Witness for claim C7 at a concrete video-ready state. -/
theorem reset_returns_idle_witness :
    stage (handleReset stVideoReady) = Stage.Idle
    ∧ (handleReset stVideoReady).prompt = defaultPrompt
    ∧ (handleReset stVideoReady).generatedImage = none
    ∧ (handleReset stVideoReady).generatedVideoUrl = none
    ∧ (handleReset stVideoReady).error = none
    ∧ (handleReset stVideoReady).isGeneratingImage = false
    ∧ (handleReset stVideoReady).isGeneratingVideo = false :=
  reset_returns_idle stVideoReady (by decide)

/-- A no-credential state carrying a previously set error. -/
def stPriorError : AppState :=
  { apiKeySelected := some false,
    prompt := defaultPrompt,
    aspect := Aspect.r16x9,
    generatedImage := none,
    generatedVideoUrl := none,
    isGeneratingImage := false,
    isGeneratingVideo := false,
    videoLoadingMessage := "",
    error := some "earlier failure" }

/-- Counterexample to claim C8 as stated: a successful credential
selection moves the state machine from NoCredential to Idle while leaving
the previously set error in place, so not every transition-triggering user
action clears the error slot first. -/
theorem select_key_keeps_error_ce :
    stage stPriorError = Stage.NoCredential
    ∧ stage (handleSelectKey true stPriorError) = Stage.Idle
    ∧ (handleSelectKey true stPriorError).error = some "earlier failure" := by
  decide

/-- Claim C8 (amended): generate (on a non-empty prompt) and animate (with
an image present) clear any previously set error before the asynchronous
step is issued, and error is set only on settle-failure of an asynchronous
step or on local validation failure: a generate or animate step that
settles successfully ends with the error slot empty, one that settles with
an error ends with exactly that error, and an empty prompt ends with the
local validation error.  The credential-selection action does not clear a
previous error — on success it leaves the error slot unchanged, and it
sets the error only when opening the chooser fails. -/
theorem error_clearing_amended (s : AppState) (resp : Except String ImagesResponse)
    (env : AnimateEnv) :
    (strTrim s.prompt ≠ "" → (handleGenerateLogo resp s).pre.error = none)
    ∧ (strTrim s.prompt = "" →
        (handleGenerateLogo resp s).post.error = some emptyPromptError)
    ∧ (∀ img, strTrim s.prompt ≠ "" → generateLogoImage resp = Except.ok img →
        (handleGenerateLogo resp s).post.error = none)
    ∧ (∀ m, strTrim s.prompt ≠ "" → generateLogoImage resp = Except.error m →
        (handleGenerateLogo resp s).post.error = some m)
    ∧ (s.generatedImage.isNone = false → (handleAnimateLogo env s).pre.error = none)
    ∧ (∀ t url, s.generatedImage.isNone = false → animateLogo env = some t →
        t.result = Except.ok url → (handleAnimateLogo env s).post.error = none)
    ∧ (∀ t m, s.generatedImage.isNone = false → animateLogo env = some t →
        t.result = Except.error m → (handleAnimateLogo env s).post.error = some m)
    ∧ (handleSelectKey true s).error = s.error
    ∧ (handleSelectKey false s).error = some selectKeyError := by
  refine ⟨?_, ?_, ?_, ?_, ?_, ?_, ?_, rfl, rfl⟩
  · intro h
    cases hres : generateLogoImage resp <;> simp [handleGenerateLogo, h, hres]
  · intro h
    simp [handleGenerateLogo, h]
  · intro img h hres
    simp [handleGenerateLogo, h, hres]
  · intro m h hres
    simp [handleGenerateLogo, h, hres]
  · intro h
    cases hres : animateLogo env with
    | none => simp [handleAnimateLogo, h, hres]
    | some t => rcases ht : t.result with v | m <;> simp [handleAnimateLogo, h, hres, ht]
  · intro t url h hres ht
    simp [handleAnimateLogo, h, hres, ht]
  · intro t m h hres ht
    simp [handleAnimateLogo, h, hres, ht]

/-- A credential-present state with an image, a prior error and a
non-empty prompt. -/
def stRetry : AppState :=
  { apiKeySelected := some true,
    prompt := "phoenix monogram",
    aspect := Aspect.r16x9,
    generatedImage := some "data-image-3",
    generatedVideoUrl := none,
    isGeneratingImage := false,
    isGeneratingVideo := false,
    videoLoadingMessage := "",
    error := some "previous failure" }

/-- The trace `animateLogo` yields on `envBoom`, with the classified
surfaced error. -/
def traceBoomSurfaced : Trace :=
  { messages := ["Initiating animation sequence..."], submitCalls := 1,
    pollCalls := 0, fetchAttempted := false,
    result := Except.error "Failed to animate logo. Please try again." }

/-- Witness for claim C8 (amended) at a concrete state with a prior
error: generate and animate clear the error before their remote step, and
their failed settles set exactly the settled error message. -/
theorem error_clearing_amended_witness :
    (handleGenerateLogo (Except.error "provider down") stRetry).pre.error = none
    ∧ (handleGenerateLogo (Except.error "provider down") stRetry).post.error
        = some "Failed to generate logo. Please try a different prompt."
    ∧ (handleAnimateLogo envBoom stRetry).pre.error = none
    ∧ (handleAnimateLogo envBoom stRetry).post.error
        = some "Failed to animate logo. Please try again."
    ∧ (handleSelectKey true stRetry).error = stRetry.error
    ∧ (handleSelectKey false stRetry).error = some selectKeyError := by
  have h := error_clearing_amended stRetry (Except.error "provider down") envBoom
  refine ⟨h.1 (by decide), ?_, h.2.2.2.2.1 (by decide), ?_, h.2.2.2.2.2.2.2.1,
    h.2.2.2.2.2.2.2.2⟩
  · exact h.2.2.2.1 "Failed to generate logo. Please try a different prompt."
      (by decide) (by decide)
  · exact h.2.2.2.2.2.2.1 traceBoomSurfaced "Failed to animate logo. Please try again."
      (by decide) (by decide) (by decide)

/-- Claim C9: changing the selected shape leaves the generated image
untouched; the image-generation request always carries the fixed square
shape "1:1" whatever the selection; and a subsequent animate submission
carries exactly the newly selected shape. -/
theorem aspect_only_affects_animate (a : Aspect) (s : AppState) (p img : String) :
    (setAspect a s).generatedImage = s.generatedImage
    ∧ (setAspect a s).generatedVideoUrl = s.generatedVideoUrl
    ∧ (imageGenRequest p).aspect = "1:1"
    ∧ (videoGenRequest img (setAspect a s).aspect).aspect = a :=
  ⟨rfl, rfl, rfl, rfl⟩

/-- Claim C10: with no generated image present, the animate action returns
at once — no remote call, no error, no field of the state changed. -/
theorem animate_without_image_noop (env : AnimateEnv) (s : AppState)
    (h : s.generatedImage = none) :
    handleAnimateLogo env s = ⟨s, false, s⟩ := by
  simp [handleAnimateLogo, h]

/-- An idle state without a generated image. -/
def stNoImage : AppState :=
  { apiKeySelected := some true,
    prompt := defaultPrompt,
    aspect := Aspect.r16x9,
    generatedImage := none,
    generatedVideoUrl := none,
    isGeneratingImage := false,
    isGeneratingVideo := false,
    videoLoadingMessage := "",
    error := none }

/-- Witness for claim C10 at a concrete image-less state. -/
theorem animate_without_image_noop_witness :
    handleAnimateLogo envPollOnce stNoImage = ⟨stNoImage, false, stNoImage⟩ :=
  animate_without_image_noop envPollOnce stNoImage (by decide)
